import Mathlib

/-!
Shallow embedding of the cart-to-order pipeline of the Ecommerce backend
(src/controller/UserController.js, src/models/CartModel.js,
src/utils/reqValidations.js, and the product/coupon schemas).

JS numbers are modelled as exact rationals (ℚ) for prices/totals and as
integers (ℤ) for counts and stock quantities; optional / possibly-unset
document fields are modelled as Option; JS string falsiness ("" is falsy)
is modelled by comparing against "".  Each Express handler becomes a pure
function from a Store (the document database) to an error-or-result plus
the resulting Store, following the source's statement order, including
which writes happen before which validations.
-/

namespace Ecom

/-- A catalog product (productSchema in src/unnamed/part_005): identifier,
title, current price, available quantity, sold counter, color variants. -/
structure Product where
  pid : Nat
  title : String
  price : ℚ
  quantity : ℤ
  sold : ℤ
  color : List String
deriving Repr, DecidableEq

/-- One cart line item (cartItemSchema in src/models/CartModel.js):
a product reference, a count, a color and the snapshotted unit price. -/
structure CartItem where
  product : Nat
  count : ℤ
  color : String
  price : ℚ
deriving Repr, DecidableEq

/-- A user's cart (cartSchema in src/models/CartModel.js). The schema gives
`totalAfterDiscount` no default, so `none` models the unset field. -/
structure Cart where
  products : List CartItem
  cartTotal : ℚ
  totalAfterDiscount : Option ℚ
  orderby : Nat
deriving Repr, DecidableEq

/-- A coupon (couponSchema in src/unnamed/part_004): upper-cased unique
name, expiry date (a timestamp) and discount percentage. -/
structure Coupon where
  name : String
  expiry : ℤ
  discount : ℚ
deriving Repr, DecidableEq

/-- The paymentIntent sub-record written by createOrder. -/
structure PaymentIntent where
  method : String
  amount : ℚ
  status : String
deriving Repr, DecidableEq

/-- An order (orderSchema in src/models/CartModel.js): snapshot of the cart
lines, payment intent, order status, owner. -/
structure Order where
  oid : Nat
  products : List CartItem
  paymentIntent : PaymentIntent
  orderStatus : String
  orderby : Nat
deriving Repr, DecidableEq

/-- A user's address; `""` models an absent or empty (JS-falsy) field,
which is exactly what `!user.address.city` tests. -/
structure Address where
  city : String
  pincode : String
deriving Repr, DecidableEq

/-- The slice of the user document createOrder reads. -/
structure User where
  uid : Nat
  address : Option Address
deriving Repr, DecidableEq

/-- The document store: product catalog, carts (at most one per orderby in
normal operation), coupons, orders, users. -/
structure Store where
  products : List Product
  carts : List Cart
  coupons : List Coupon
  orders : List Order
  users : List User
deriving Repr, DecidableEq

/-- An entry of a cart request body: { _id, count, color? }; `color = ""`
models an absent or empty (JS-falsy) color. -/
structure ReqItem where
  pid : Nat
  count : ℤ
  color : String
deriving Repr, DecidableEq

/-- The errors the handlers report (the machine-checkable kinds of the
4xx/5xx responses in src/controller/UserController.js). -/
inductive CartError where
  | productNotFound (pid : Nat)
  | insufficientStock (available : ℤ) (title : String)
  | invalidVariant (requested : String) (title : String) (allowed : List String)
  | noCartFound
  | invalidCoupon
  | invalidStatus
  | invalidPaymentStatus
  | incompleteAddress
  | codRequired
  | orderNotFound
  | validationFailed
deriving Repr, DecidableEq

/-- `Product.findById` / the `$in` fetch: first catalog entry with this id. -/
def findProduct (db : List Product) (pid : Nat) : Option Product :=
  db.find? (fun p => p.pid == pid)

/-- `Cart.findOne({ orderby: userId })`. -/
def findCart (s : Store) (userId : Nat) : Option Cart :=
  s.carts.find? (fun c => c.orderby == userId)

/-- `Coupon.findOne({ name })`. -/
def findCoupon (s : Store) (name : String) : Option Coupon :=
  s.coupons.find? (fun c => c.name == name)

/-- `User.findById`. -/
def findUser (s : Store) (userId : Nat) : Option User :=
  s.users.find? (fun u => u.uid == userId)

/-- `Order.findById`. -/
def findOrder (s : Store) (oid : Nat) : Option Order :=
  s.orders.find? (fun o => o.oid == oid)

/-- ASCII `toLowerCase()`: lower-case every character. (Implemented
structurally over the character list so that concrete instances compute.) -/
def lc (s : String) : String :=
  String.mk (s.data.map Char.toLower)

/-- ASCII `toUpperCase()`: upper-case every character. -/
def uc (s : String) : String :=
  String.mk (s.data.map Char.toUpper)

/-- `item?.color || product?.color[0] || "General"`: the requested color if
truthy, else the product's first color if truthy, else "General". -/
def defaultColor (itemColor : String) (productColors : List String) : String :=
  if itemColor ≠ "" then itemColor
  else
    match productColors with
    | [] => "General"
    | c :: _ => if c = "" then "General" else c

/-- The per-line validation shared by userCart and updateUserCart:
product must exist; `item.count > product.quantity` fails with the
available quantity and title; a truthy requested color must be in the
product's color list (compared lower-cased). -/
def checkLine (db : List Product) (item : ReqItem) : Except CartError Product :=
  match findProduct db item.pid with
  | none => .error (.productNotFound item.pid)
  | some product =>
    if item.count > product.quantity then
      .error (.insufficientStock product.quantity product.title)
    else if item.color ≠ "" && !(product.color.contains (lc item.color)) then
      .error (.invalidVariant item.color product.title product.color)
    else
      .ok product

/-- The `cart.map` of userCart: validate each line and snapshot
{ product, count, color, price } from the catalog. -/
def buildItems (db : List Product) : List ReqItem → Except CartError (List CartItem)
  | [] => .ok []
  | item :: rest =>
    match checkLine db item with
    | .error e => .error e
    | .ok product =>
      match buildItems db rest with
      | .error e => .error e
      | .ok tail =>
        .ok ({ product := item.pid, count := item.count,
               color := defaultColor item.color product.color,
               price := product.price } :: tail)

/-- `Σ price × count` over a line list (the reduce in userCart). -/
def linesTotal (lines : List CartItem) : ℚ :=
  (lines.map (fun it => it.price * (it.count : ℚ))).sum

/-- Mongoose validators of cartItemSchema: count ≥ 1, price ≥ 0. -/
def cartItemValid (it : CartItem) : Bool :=
  it.count ≥ 1 && it.price ≥ 0

/-- `cart.validate()`: every line passes the item validators. -/
def cartValidate (c : Cart) : Bool :=
  c.products.all cartItemValid

/-- cartSchema.pre("save"): a falsy totalAfterDiscount (unset or 0) is
backfilled with cartTotal just before the document is written. -/
def preSave (c : Cart) : Cart :=
  if c.totalAfterDiscount = none ∨ c.totalAfterDiscount = some 0 then
    { c with totalAfterDiscount := some c.cartTotal }
  else c

/-- Drop the cart(s) of this owner (`Cart.findOneAndRemove({ orderby })`). -/
def removeCart (carts : List Cart) (userId : Nat) : List Cart :=
  carts.filter (fun c => c.orderby ≠ userId)

/-- `document.save()` on a cart: run the pre-save hook and write the
document back under its owner key. -/
def saveCart (s : Store) (c : Cart) : Store :=
  { s with carts := preSave c :: removeCart s.carts c.orderby }

/-- userCart (POST /add-cart, src/controller/UserController.js 964-1068):
FIRST removes any existing cart of the user, THEN validates and builds the
replacement; on a validation failure the removal has already been
committed.  Returns the reported error (if any) and the resulting store. -/
def userCartRun (s : Store) (userId : Nat) (cart : List ReqItem) :
    Option CartError × Store :=
  let s1 : Store := { s with carts := removeCart s.carts userId }
  match buildItems s.products cart with
  | .error e => (some e, s1)
  | .ok items =>
    let newCart : Cart :=
      { products := items, cartTotal := linesTotal items,
        totalAfterDiscount := none, orderby := userId }
    if cartValidate newCart then (none, saveCart s1 newCart)
    else (some .validationFailed, s1)

/-- `existingCart.products.find(p => p.product == id && p.color == c)`
succeeds somewhere in the list. -/
def hasLine (lines : List CartItem) (pid : Nat) (color : String) : Bool :=
  lines.any (fun l => l.product == pid && l.color == color)

/-- `existingProductInCart.count += item.count` on the FIRST line matching
(product, color), leaving every other line alone. -/
def incFirst (lines : List CartItem) (pid : Nat) (color : String) (k : ℤ) :
    List CartItem :=
  match lines with
  | [] => []
  | l :: rest =>
    if l.product == pid && l.color == color then
      { l with count := l.count + k } :: rest
    else
      l :: incFirst rest pid color k

/-- The merge loop of updateUserCart: validate each incoming line; on a
(product, color) match against the (already partially updated) existing
lines, bump that line's count in place; otherwise collect the line into
`additional`.  Note the loop never adds a matched line's incremental
price×count anywhere: only `additional` feeds the cartTotal update. -/
def mergeItems (db : List Product) (lines additional : List CartItem) :
    List ReqItem → Except CartError (List CartItem × List CartItem)
  | [] => .ok (lines, additional)
  | item :: rest =>
    match checkLine db item with
    | .error e => .error e
    | .ok product =>
      let c := defaultColor item.color product.color
      if hasLine lines item.pid c then
        mergeItems db (incFirst lines item.pid c item.count) additional rest
      else
        mergeItems db lines
          (additional ++ [{ product := item.pid, count := item.count,
                            color := c, price := product.price }]) rest

/-- updateUserCart (PUT /cart/update-cart, UserController.js 1081-1178):
fails with NoCartFound without a cart; merges the request into the cart in
memory; `cartTotal += Σ price × count` over the NEW lines only; saves only
when the whole request validated, so an error leaves the store untouched. -/
def updateUserCartRun (s : Store) (userId : Nat) (productsToAdd : List ReqItem) :
    Option CartError × Store :=
  match findCart s userId with
  | none => (some .noCartFound, s)
  | some existingCart =>
    match mergeItems s.products existingCart.products [] productsToAdd with
    | .error e => (some e, s)
    | .ok (lines, additional) =>
      let newCart : Cart :=
        { existingCart with
            products := lines ++ additional,
            cartTotal := existingCart.cartTotal + linesTotal additional }
      if cartValidate newCart then (none, saveCart s newCart)
      else (some .validationFailed, s)

/-- emptyCart (DELETE /delete-cart, UserController.js 1239-1285): resets
lines, cartTotal and totalAfterDiscount to zero and saves. -/
def emptyCartRun (s : Store) (userId : Nat) : Option CartError × Store :=
  match findCart s userId with
  | none => (some .noCartFound, s)
  | some c =>
    (none, saveCart s { c with products := [], cartTotal := 0,
                               totalAfterDiscount := some 0 })

/-- `toFixed(2)` on the nonnegative amounts that occur here, idealised
over exact rationals: round to two decimal places, half up. -/
def round2 (q : ℚ) : ℚ :=
  ((q * 100 + 1 / 2).floor : ℚ) / 100

/-- The findOneAndUpdate write of applyCoupon: set ONLY the cart's
totalAfterDiscount (bypassing the pre-save hook). -/
def withDiscount (c : Cart) (t : ℚ) : Cart :=
  { c with totalAfterDiscount := some t }

/-- applyCoupon (POST /cart/coupon, UserController.js 1306-1371): upper-case
the code, look the coupon up (no expiry consultation anywhere), require a
cart, compute `cartTotal - cartTotal * discount / 100` rounded to two
decimals, and write ONLY totalAfterDiscount back via findOneAndUpdate
(which bypasses the pre-save hook).  Returns the new total as well. -/
def applyCouponRun (s : Store) (userId : Nat) (coupon : String) :
    Except CartError (Store × ℚ) :=
  match findCoupon s (uc coupon) with
  | none => .error .invalidCoupon
  | some validCoupon =>
    match findCart s userId with
    | none => .error .noCartFound
    | some cart =>
      let totalAfterDiscount :=
        round2 (cart.cartTotal - cart.cartTotal * validCoupon.discount / 100)
      .ok ({ s with carts := withDiscount cart totalAfterDiscount ::
                             removeCart s.carts userId },
           totalAfterDiscount)

/-- `!user.address || !user.address.city || !user.address.pincode`,
with "" playing the role of a falsy field. -/
def completeAddress (u : User) : Bool :=
  match u.address with
  | none => false
  | some a => a.city ≠ "" && a.pincode ≠ ""

/-- `couponApplied && userCart.totalAfterDiscount` is truthy. -/
def tadTruthy (c : Cart) : Bool :=
  match c.totalAfterDiscount with
  | none => false
  | some v => v ≠ 0

/-- The total count a line list orders of one product (summed over its
lines, e.g. the same product in several colors). -/
def cartCountOf (lines : List CartItem) (pid : Nat) : ℤ :=
  ((lines.filter (fun l => l.product == pid)).map (fun l => l.count)).sum

/-- The Product.bulkWrite of createOrder: for every cart line an
`$inc: { quantity: -count, sold: +count }` against its product; per
catalog entry the net effect subtracts (and adds to sold) the sum of the
counts of the lines referencing it. -/
def decProducts (db : List Product) (lines : List CartItem) : List Product :=
  db.map (fun p =>
    { p with quantity := p.quantity - cartCountOf lines p.pid,
             sold := p.sold + cartCountOf lines p.pid })

/-- The order document createOrder saves: cart-line snapshot, a COD
paymentIntent with the computed amount and status "Cash On Delivery",
orderStatus "Processing". -/
def codOrder (oid userId : Nat) (lines : List CartItem) (amount : ℚ) : Order :=
  { oid := oid, products := lines,
    paymentIntent := { method := "COD", amount := amount,
                       status := "Cash On Delivery" },
    orderStatus := "Processing", orderby := userId }

/-- createOrder (POST /cart/cash-order, UserController.js 1393-1483):
requires COD; requires the user's address to have a truthy city and
pincode; requires a cart to exist (there is NO emptiness check on its
line list); charges totalAfterDiscount when couponApplied and the cached
discount is truthy, else cartTotal; appends the order; bulk-updates the
catalog; then empties the cart.  `newOrderId` stands for uniqid(). -/
def createOrderRun (s : Store) (userId : Nat) (cod couponApplied : Bool)
    (newOrderId : Nat) : Option CartError × Store :=
  if !cod then (some .codRequired, s)
  else
    match findUser s userId with
    | none => (some .validationFailed, s)
    | some user =>
      if !completeAddress user then (some .incompleteAddress, s)
      else
        match findCart s userId with
        | none => (some .noCartFound, s)
        | some userCart =>
          let finalAmount :=
            if couponApplied && tadTruthy userCart then
              userCart.totalAfterDiscount.getD userCart.cartTotal
            else userCart.cartTotal
          let newOrder : Order :=
            codOrder newOrderId userId userCart.products finalAmount
          let s1 : Store := { s with orders := s.orders ++ [newOrder] }
          let s2 : Store :=
            { s1 with products := decProducts s1.products userCart.products }
          (none, saveCart s2 { userCart with products := [], cartTotal := 0,
                                             totalAfterDiscount := some 0 })

/-- `split(" ")` on the character list: JS String.prototype.split with a
single-space separator (so `""` splits to `[""]`). -/
def splitWords : List Char → List Char → List (List Char)
  | [], cur => [cur.reverse]
  | c :: rest, cur =>
    if c = ' ' then cur.reverse :: splitWords rest []
    else splitWords rest (c :: cur)

/-- `join(" ")`. -/
def joinSpace : List (List Char) → List Char
  | [] => []
  | [w] => w
  | w :: ws => w ++ ' ' :: joinSpace ws

/-- `word.charAt(0).toUpperCase() + word.slice(1)`. -/
def capWord : List Char → List Char
  | [] => []
  | c :: cs => Char.toUpper c :: cs

/-- `formattedStatus.split(" ").map(capitalize).join(" ")`. -/
def titleCase (s : String) : String :=
  String.mk (joinSpace ((splitWords s.data []).map capWord))

/-- validateStatus (src/utils/reqValidations.js 22-31): lower-case the
status, reject it unless it is in the vocabulary, else title-case it. -/
def validateStatus (status : String) (validStatuses : List String) :
    Option String :=
  let formatted := lc status
  if validStatuses.contains formatted then some (titleCase formatted)
  else none

/-- The order-status vocabulary of updateOrderStatus. -/
def validStatuses : List String :=
  ["not processed", "in transit", "processing", "dispatched", "cancelled",
   "delivered"]

/-- The payment-status vocabulary of updateOrderStatus. -/
def paymentStatuses : List String :=
  ["processing", "waiting", "payment successful", "payment failed",
   "declined", "cash on delivery"]

/-- The single findByIdAndUpdate write of updateOrderStatus: set
orderStatus and the nested paymentIntent.status, nothing else. -/
def withStatus (o : Order) (st pay : String) : Order :=
  { o with orderStatus := st,
           paymentIntent := { o.paymentIntent with status := pay } }

/-- updateOrderStatus (PUT /order/:id/status, UserController.js 1656-1729):
validate both statuses first (rejecting before ANY write when either is
out of vocabulary), then update orderStatus and paymentIntent.status of
the order in one findByIdAndUpdate. -/
def updateOrderStatusRun (s : Store) (oid : Nat)
    (orderStatus paymentStatus : String) : Option CartError × Store :=
  match validateStatus orderStatus validStatuses with
  | none => (some .invalidStatus, s)
  | some status =>
    match validateStatus paymentStatus paymentStatuses with
    | none => (some .invalidPaymentStatus, s)
    | some pay =>
      match findOrder s oid with
      | none => (some .orderNotFound, s)
      | some _ =>
        (none, { s with orders := s.orders.map (fun o =>
          if o.oid == oid then withStatus o status pay else o) })

/-! Infrastructure lemmas shared by the claim theorems. -/

theorem findCart_orderby {s : Store} {userId : Nat} {c : Cart}
    (h : findCart s userId = some c) : c.orderby = userId := by
  have := List.find?_some h
  simpa using this

theorem preSave_orderby (c : Cart) : (preSave c).orderby = c.orderby := by
  unfold preSave
  split <;> rfl

theorem findCart_saveCart (s : Store) (c : Cart) :
    findCart (saveCart s c) c.orderby = some (preSave c) := by
  unfold findCart saveCart
  simp [List.find?_cons, preSave_orderby]

theorem preSave_of_nonzero {c : Cart} {v : ℚ}
    (hv : c.totalAfterDiscount = some v) (hnz : v ≠ 0) : preSave c = c := by
  unfold preSave
  rw [hv]
  simp [hnz]

theorem find?_pid_map (db : List Product) (f : Product → Product)
    (hf : ∀ p, (f p).pid = p.pid) (pid : Nat) :
    (db.map f).find? (fun p => p.pid == pid) =
      (db.find? (fun p => p.pid == pid)).map f := by
  induction db with
  | nil => rfl
  | cons q rest ih =>
    cases h : (q.pid == pid) <;> simp [List.find?, hf, h, ih]

theorem find?_oid_map (os : List Order) (f : Order → Order)
    (hf : ∀ o, (f o).oid = o.oid) (oid : Nat) :
    (os.map f).find? (fun o => o.oid == oid) =
      (os.find? (fun o => o.oid == oid)).map f := by
  induction os with
  | nil => rfl
  | cons q rest ih =>
    cases h : (q.oid == oid) <;> simp [List.find?, hf, h, ih]

theorem findProduct_pid {db : List Product} {pid : Nat} {p : Product}
    (h : findProduct db pid = some p) : p.pid = pid := by
  have := List.find?_some h
  simpa using this

/-! Concrete fixtures for the incremental-merge scenarios. -/

/-- A catalog product for the merge scenarios. -/
def redPen : Product :=
  { pid := 1, title := "Red Pen", price := 100, quantity := 10, sold := 0,
    color := ["red"] }

/-- A cart already holding one red-pen line (count 1, unit price 100). -/
def penCart : Cart :=
  { products := [{ product := 1, count := 1, color := "red", price := 100 }],
    cartTotal := 100, totalAfterDiscount := some 100, orderby := 2 }

def penStore : Store :=
  { products := [redPen], carts := [penCart], coupons := [], orders := [],
    users := [] }

/-- C2: the claimed invariant `cartTotal = Σ unitPrice × count` FAILS after an
incremental merge that matches an existing (productId, color) line: merging
{productId 1, count 2, color red} into a cart holding {productId 1, count 1,
color red, unit price 100} succeeds, leaves the persisted cartTotal at 100,
while the lines now sum to 300 — updateUserCart adds only NEW lines' totals
to cartTotal, never the matched line's incremental price × count. -/
theorem cartTotal_invariant_fails_after_merge :
    (updateUserCartRun penStore 2 [{ pid := 1, count := 2, color := "red" }]).1 =
      none ∧
    (findCart (updateUserCartRun penStore 2
        [{ pid := 1, count := 2, color := "red" }]).2 2).map Cart.cartTotal =
      some 100 ∧
    (findCart (updateUserCartRun penStore 2
        [{ pid := 1, count := 2, color := "red" }]).2 2).map
        (fun c => linesTotal c.products) = some 300 := by
  refine ⟨?_, ?_, ?_⟩ <;>
    simp [updateUserCartRun, mergeItems, checkLine, findProduct, penStore,
      redPen, penCart, findCart, hasLine, incFirst, defaultColor, lc,
      cartValidate, cartItemValid, linesTotal, saveCart, preSave,
      removeCart] <;>
    norm_num

/-- Another catalog product, cart and store for the C3 scenario. -/
def blueMug : Product :=
  { pid := 7, title := "Blue Mug", price := 50, quantity := 20, sold := 0,
    color := ["blue"] }

def mugCart : Cart :=
  { products := [{ product := 7, count := 2, color := "blue", price := 50 }],
    cartTotal := 100, totalAfterDiscount := some 100, orderby := 3 }

def mugStore : Store :=
  { products := [blueMug], carts := [mugCart], coupons := [], orders := [],
    users := [] }

/-- C3: merging {productId 7, count 3, color blue} into a cart already
holding {productId 7, count 2, color blue, unit price 50} does increase the
matched line's count in place to 5 and creates no duplicate line — but the
incremental price × count (150) is NOT added to cartTotal, which stays at
100 instead of the 250 the claim requires. -/
theorem merge_count_in_place_but_total_not_incremented :
    (updateUserCartRun mugStore 3 [{ pid := 7, count := 3, color := "blue" }]).1 =
      none ∧
    (findCart (updateUserCartRun mugStore 3
        [{ pid := 7, count := 3, color := "blue" }]).2 3).map Cart.products =
      some [{ product := 7, count := 5, color := "blue", price := 50 }] ∧
    (findCart (updateUserCartRun mugStore 3
        [{ pid := 7, count := 3, color := "blue" }]).2 3).map Cart.cartTotal =
      some 100 := by
  refine ⟨?_, ?_, ?_⟩ <;>
    simp [updateUserCartRun, mergeItems, checkLine, findProduct, mugStore,
      blueMug, mugCart, findCart, hasLine, incFirst, defaultColor, lc,
      cartValidate, cartItemValid, linesTotal, saveCart, preSave,
      removeCart]

/-! Fixtures and theorems for order placement with an empty cart (C1). -/

/-- An owner with a complete address. -/
def emptyCartOwner : User :=
  { uid := 5, address := some { city := "Pune", pincode := "411001" } }

/-- The owner's cart exists but holds no lines. -/
def ownerEmptyCart : Cart :=
  { products := [], cartTotal := 0, totalAfterDiscount := some 0, orderby := 5 }

def emptyCartStore : Store :=
  { products := [], carts := [ownerEmptyCart], coupons := [], orders := [],
    users := [emptyCartOwner] }

/-- C1 counterexample: with an existing but EMPTY cart (and a complete
address), createOrder does NOT fail with EmptyCart: it reports no error and
an Order record IS created — the source has no emptiness check. -/
theorem createOrder_empty_cart_not_rejected :
    (createOrderRun emptyCartStore 5 true false 41).1 = none ∧
    (createOrderRun emptyCartStore 5 true false 41).2.orders.length = 1 := by
  constructor <;>
    simp [createOrderRun, findUser, findCart, emptyCartStore, emptyCartOwner,
      ownerEmptyCart, completeAddress, decProducts, saveCart, preSave,
      removeCart]

/-- C1 (amended): for every owner with a complete address whose cart exists
with an empty line list, place-order SUCCEEDS: the only cart-related
precondition in the code is that a cart exists at all, so an Order with an
empty line list and amount cartTotal is created. -/
theorem createOrder_empty_cart_succeeds (s : Store) (userId oid : Nat)
    (u : User) (c : Cart) (hu : findUser s userId = some u)
    (ha : completeAddress u = true) (hc : findCart s userId = some c)
    (hp : c.products = []) :
    (createOrderRun s userId true false oid).1 = none ∧
    (createOrderRun s userId true false oid).2.orders =
      s.orders ++ [codOrder oid userId [] c.cartTotal] := by
  constructor <;> simp [createOrderRun, hu, ha, hc, hp, saveCart]

theorem createOrder_empty_cart_succeeds_witness :
    (createOrderRun emptyCartStore 5 true false 42).1 = none ∧
    (createOrderRun emptyCartStore 5 true false 42).2.orders =
      emptyCartStore.orders ++ [codOrder 42 5 [] ownerEmptyCart.cartTotal] :=
  createOrder_empty_cart_succeeds emptyCartStore 5 42 emptyCartOwner
    ownerEmptyCart (by simp [findUser, emptyCartStore, emptyCartOwner])
    (by decide)
    (by simp [findCart, emptyCartStore, ownerEmptyCart]) rfl

/-! Fixtures and theorems for the failing build request (C4). -/

/-- A product with only 3 in stock. -/
def scarceProd : Product :=
  { pid := 3, title := "Gadget", price := 40, quantity := 3, sold := 0,
    color := ["black"] }

/-- The owner's previously persisted cart. -/
def priorCart : Cart :=
  { products := [{ product := 3, count := 1, color := "black", price := 40 }],
    cartTotal := 40, totalAfterDiscount := some 40, orderby := 4 }

def gadgetStore : Store :=
  { products := [scarceProd], carts := [priorCart], coupons := [], orders := [],
    users := [] }

/-- C4 counterexample: requesting count 5 of the quantity-3 product does
fail with InsufficientStock reporting 3 and the name, BUT the owner's
previously persisted cart is NOT unchanged: userCart deletes it before
validating anything, so after the failed call the owner has no cart. -/
theorem failed_build_deletes_prior_cart :
    (userCartRun gadgetStore 4 [{ pid := 3, count := 5, color := "" }]).1 =
      some (.insufficientStock 3 "Gadget") ∧
    findCart gadgetStore 4 = some priorCart ∧
    findCart (userCartRun gadgetStore 4
      [{ pid := 3, count := 5, color := "" }]).2 4 = none := by
  refine ⟨?_, ?_, ?_⟩ <;>
    simp [userCartRun, buildItems, checkLine, findProduct, gadgetStore,
      scarceProd, priorCart, findCart, removeCart]

/-- C4 (amended): every build request containing an invalid line — absent
product, count exceeding stock, or unavailable color, at any position, as
surfaced by the per-line validation (`buildItems` erroring with the
corresponding error: ProductNotFound, InsufficientStock with the available
quantity and product name, or InvalidVariant with the allowed variants) —
fails with exactly that error and writes no new cart; but the owner's
previously persisted cart has already been deleted (userCart removes it
BEFORE validating), so the store is left with that cart removed rather
than unchanged. -/
theorem userCart_failure_after_removal (s : Store) (userId : Nat)
    (req : List ReqItem) (e : CartError)
    (hb : buildItems s.products req = .error e) :
    (userCartRun s userId req).1 = some e ∧
    (userCartRun s userId req).2.carts = removeCart s.carts userId := by
  constructor <;> simp [userCartRun, hb]

theorem userCart_failure_after_removal_witness :
    (userCartRun gadgetStore 4
        [{ pid := 3, count := 1, color := "" },
         { pid := 3, count := 1, color := "green" }]).1 =
      some (.invalidVariant "green" "Gadget" ["black"]) ∧
    (userCartRun gadgetStore 4
        [{ pid := 3, count := 1, color := "" },
         { pid := 3, count := 1, color := "green" }]).2.carts =
      removeCart gadgetStore.carts 4 :=
  userCart_failure_after_removal gadgetStore 4
    [{ pid := 3, count := 1, color := "" },
     { pid := 3, count := 1, color := "green" }]
    (.invalidVariant "green" "Gadget" ["black"])
    (by simp [buildItems, checkLine, findProduct, gadgetStore, scarceProd,
      defaultColor, lc])

/-- C8: a failed incremental merge commits nothing: whenever updateUserCart
reports an error — even when earlier lines of the same request were valid
and had already been merged in memory — the resulting store (and thus the
owner's persisted cart) is exactly the input store; only a request that
validated in full is ever saved. -/
theorem updateUserCart_failure_commits_nothing (s : Store) (userId : Nat)
    (req : List ReqItem) (e : CartError)
    (h : (updateUserCartRun s userId req).1 = some e) :
    (updateUserCartRun s userId req).2 = s := by
  unfold updateUserCartRun at h ⊢
  cases hfc : findCart s userId
  · rfl
  case some c =>
    rw [hfc] at h
    dsimp only at h ⊢
    cases hm : mergeItems s.products c.products [] req
    · rfl
    case ok pr =>
      obtain ⟨lines, additional⟩ := pr
      rw [hm] at h
      dsimp only at h ⊢
      split_ifs at h ⊢ <;> simp_all

/-- A store for the C8 witness: a valid first line followed by an invalid
line, with an existing cart; the request fails and nothing is committed. -/
def inkPot : Product :=
  { pid := 8, title := "Ink Pot", price := 30, quantity := 4, sold := 0,
    color := ["black"] }

def inkCart : Cart :=
  { products := [{ product := 8, count := 1, color := "black", price := 30 }],
    cartTotal := 30, totalAfterDiscount := some 30, orderby := 6 }

def inkStore : Store :=
  { products := [inkPot], carts := [inkCart], coupons := [], orders := [],
    users := [] }

theorem updateUserCart_failure_commits_nothing_witness :
    (updateUserCartRun inkStore 6
        [{ pid := 8, count := 1, color := "black" },
         { pid := 8, count := 9, color := "black" }]).1 =
      some (.insufficientStock 4 "Ink Pot") ∧
    (updateUserCartRun inkStore 6
        [{ pid := 8, count := 1, color := "black" },
         { pid := 8, count := 9, color := "black" }]).2 = inkStore :=
  ⟨by simp [updateUserCartRun, mergeItems, checkLine, findProduct, inkStore,
      inkPot, inkCart, findCart, hasLine, incFirst, defaultColor, lc],
   updateUserCart_failure_commits_nothing inkStore 6
    [{ pid := 8, count := 1, color := "black" },
     { pid := 8, count := 9, color := "black" }]
    (.insufficientStock 4 "Ink Pot")
    (by simp [updateUserCartRun, mergeItems, checkLine, findProduct, inkStore,
      inkPot, inkCart, findCart, hasLine, incFirst, defaultColor, lc])⟩

/-- C10: a successful incremental merge leaves a previously applied
non-zero totalAfterDiscount untouched: updateUserCart writes products and
cartTotal only, and the pre-save hook backfills totalAfterDiscount only
when it is falsy, so the cached discount is neither recomputed nor
cleared. -/
theorem merge_preserves_totalAfterDiscount (s : Store) (userId : Nat)
    (req : List ReqItem) (c : Cart) (v : ℚ)
    (hc : findCart s userId = some c)
    (hv : c.totalAfterDiscount = some v) (hnz : v ≠ 0)
    (hok : (updateUserCartRun s userId req).1 = none) :
    (findCart (updateUserCartRun s userId req).2 userId).map
      Cart.totalAfterDiscount = some (some v) := by
  unfold updateUserCartRun at hok ⊢
  rw [hc] at hok ⊢
  dsimp only at hok ⊢
  cases hm : mergeItems s.products c.products [] req
  · rw [hm] at hok
    simp at hok
  case ok pr =>
    obtain ⟨lines, additional⟩ := pr
    rw [hm] at hok
    dsimp only at hok ⊢
    split_ifs at hok ⊢ with hval
    have hord : c.orderby = userId := findCart_orderby hc
    subst hord
    have hfs := findCart_saveCart s { c with products := lines ++ additional, cartTotal := c.cartTotal + linesTotal additional }
    rw [preSave_of_nonzero (c := { c with products := lines ++ additional, cartTotal := c.cartTotal + linesTotal additional }) (v := v) hv hnz] at hfs
    rw [show ({ c with products := lines ++ additional, cartTotal := c.cartTotal + linesTotal additional } : Cart).orderby = c.orderby from rfl] at hfs
    rw [hfs]
    simp [hv]

/-- Fixtures for the C10 witness: a cart with a cached non-zero discount
(18 on a total of 20) that a successful merge must not disturb. -/
def discProd : Product :=
  { pid := 15, title := "Lamp", price := 20, quantity := 50, sold := 0,
    color := ["white"] }

def discCart : Cart :=
  { products := [{ product := 15, count := 1, color := "white", price := 20 }],
    cartTotal := 20, totalAfterDiscount := some 18, orderby := 14 }

def discStore : Store :=
  { products := [discProd], carts := [discCart], coupons := [], orders := [],
    users := [] }

theorem merge_preserves_totalAfterDiscount_witness :
    (findCart (updateUserCartRun discStore 14
        [{ pid := 15, count := 2, color := "white" }]).2 14).map
      Cart.totalAfterDiscount = some (some 18) :=
  merge_preserves_totalAfterDiscount discStore 14
    [{ pid := 15, count := 2, color := "white" }] discCart 18
    (by simp [findCart, discStore, discCart]) rfl (by norm_num)
    (by simp [updateUserCartRun, mergeItems, checkLine, findProduct, discStore,
      discProd, discCart, findCart, hasLine, incFirst, defaultColor, lc,
      cartValidate, cartItemValid])

/-! Order placement: the success path (C5). -/

theorem findProduct_decProducts (db : List Product) (lines : List CartItem)
    (pid : Nat) :
    findProduct (decProducts db lines) pid =
      (findProduct db pid).map (fun p =>
        { p with quantity := p.quantity - cartCountOf lines p.pid,
                 sold := p.sold + cartCountOf lines p.pid }) := by
  unfold findProduct decProducts
  exact find?_pid_map db (fun p => { p with quantity := p.quantity - cartCountOf lines p.pid, sold := p.sold + cartCountOf lines p.pid }) (fun p => rfl) pid

/-- C5: a successful cash order charges totalAfterDiscount exactly when the
coupon flag is set and a non-zero discount is cached on the cart (else
cartTotal); per catalog product, quantity drops and sold rises by the total
count the cart's lines order of it; and the owner's cart is left with an
empty line list and both totals zero. -/
theorem createOrder_success_spec (s : Store) (userId oid : Nat)
    (couponApplied : Bool) (u : User) (c : Cart)
    (hu : findUser s userId = some u) (ha : completeAddress u = true)
    (hc : findCart s userId = some c) :
    (createOrderRun s userId true couponApplied oid).1 = none ∧
    (∃ amount : ℚ,
      (createOrderRun s userId true couponApplied oid).2.orders =
        s.orders ++ [codOrder oid userId c.products amount] ∧
      ((couponApplied = true ∧ ∃ v, c.totalAfterDiscount = some v ∧ v ≠ 0) →
         some amount = c.totalAfterDiscount) ∧
      ((couponApplied = false ∨ c.totalAfterDiscount = none ∨
          c.totalAfterDiscount = some 0) → amount = c.cartTotal)) ∧
    (∀ pid : Nat,
      findProduct (createOrderRun s userId true couponApplied oid).2.products
          pid =
        (findProduct s.products pid).map (fun p =>
          { p with quantity := p.quantity - cartCountOf c.products p.pid,
                   sold := p.sold + cartCountOf c.products p.pid })) ∧
    (findCart (createOrderRun s userId true couponApplied oid).2 userId).map
        (fun cc => (cc.products, cc.cartTotal, cc.totalAfterDiscount)) =
      some ([], 0, some 0) := by
  have hord : c.orderby = userId := findCart_orderby hc
  have hR : createOrderRun s userId true couponApplied oid =
      (none, saveCart { s with orders := s.orders ++ [codOrder oid userId c.products (if couponApplied && tadTruthy c then c.totalAfterDiscount.getD c.cartTotal else c.cartTotal)], products := decProducts s.products c.products } { c with products := [], cartTotal := 0, totalAfterDiscount := some 0 }) := by
    unfold createOrderRun
    rw [hu, hc]
    simp [ha]
  refine ⟨by rw [hR], ?_, ?_, ?_⟩
  · refine ⟨if couponApplied && tadTruthy c then
        c.totalAfterDiscount.getD c.cartTotal else c.cartTotal, ?_, ?_, ?_⟩
    · rw [hR]
      simp [saveCart]
    · rintro ⟨hca, v, hv, hnz⟩
      rw [hca]
      simp [tadTruthy, hv, hnz]
    · rintro (hf | hn | h0)
      · rw [hf]
        simp
      · simp [tadTruthy, hn]
      · simp [tadTruthy, h0]
  · intro pid
    rw [hR]
    simp only [saveCart]
    exact findProduct_decProducts s.products c.products pid
  · rw [hR, ← hord]
    rw [show c.orderby = ({ c with products := ([] : List CartItem), cartTotal := 0, totalAfterDiscount := some 0 } : Cart).orderby from rfl]
    rw [findCart_saveCart]
    simp [preSave]

/-- Fixtures for the C5 witness: the spec §8 scenario (price 100, count 2,
10 in stock, a cached 10% discount of 180, couponApplied). -/
def specProd : Product :=
  { pid := 11, title := "P One", price := 100, quantity := 10, sold := 0,
    color := ["red"] }

def specCart : Cart :=
  { products := [{ product := 11, count := 2, color := "red", price := 100 }],
    cartTotal := 200, totalAfterDiscount := some 180, orderby := 9 }

def specUser : User :=
  { uid := 9, address := some { city := "Mumbai", pincode := "400001" } }

def specStore : Store :=
  { products := [specProd], carts := [specCart], coupons := [], orders := [],
    users := [specUser] }

theorem createOrder_success_spec_witness :
    (createOrderRun specStore 9 true true 77).1 = none ∧
    (∃ amount : ℚ,
      (createOrderRun specStore 9 true true 77).2.orders =
        specStore.orders ++ [codOrder 77 9 specCart.products amount] ∧
      ((true = true ∧ ∃ v, specCart.totalAfterDiscount = some v ∧ v ≠ 0) →
         some amount = specCart.totalAfterDiscount) ∧
      ((true = false ∨ specCart.totalAfterDiscount = none ∨
          specCart.totalAfterDiscount = some 0) →
         amount = specCart.cartTotal)) ∧
    (∀ pid : Nat,
      findProduct (createOrderRun specStore 9 true true 77).2.products pid =
        (findProduct specStore.products pid).map (fun p =>
          { p with quantity := p.quantity - cartCountOf specCart.products p.pid,
                   sold := p.sold + cartCountOf specCart.products p.pid })) ∧
    (findCart (createOrderRun specStore 9 true true 77).2 9).map
        (fun cc => (cc.products, cc.cartTotal, cc.totalAfterDiscount)) =
      some ([], 0, some 0) :=
  createOrder_success_spec specStore 9 77 true specUser specCart
    (by simp [findUser, specStore, specUser]) (by decide)
    (by simp [findCart, specStore, specCart])

/-! Coupon application (C6, C9). -/

theorem findCoupon_set_carts (s : Store) (cs : List Cart) (name : String) :
    findCoupon { s with carts := cs } name = findCoupon s name := rfl

/-- C6: applying a stored coupon of discount d to a cart of total T writes
totalAfterDiscount = round2(T × (1 − d/100)) onto the cart — mutating no
line item and leaving cartTotal untouched — and a later application of any
stored coupon (the same or another) recomputes from the SAME cartTotal,
overwriting rather than compounding the discount. -/
theorem applyCoupon_spec (s : Store) (userId : Nat) (code : String)
    (cpn : Coupon) (c : Cart)
    (hcpn : findCoupon s (uc code) = some cpn)
    (hc : findCart s userId = some c) :
    ∃ s2 : Store,
      applyCouponRun s userId code =
        .ok (s2, round2 (c.cartTotal * (1 - cpn.discount / 100))) ∧
      findCart s2 userId =
        some (withDiscount c
          (round2 (c.cartTotal * (1 - cpn.discount / 100)))) ∧
      (∀ code2 cpn2, findCoupon s (uc code2) = some cpn2 →
        (applyCouponRun s2 userId code2).map (fun r => r.2) =
          .ok (round2 (c.cartTotal * (1 - cpn2.discount / 100)))) := by
  have hord : c.orderby = userId := findCart_orderby hc
  have harg : ∀ d : ℚ, c.cartTotal - c.cartTotal * d / 100 =
      c.cartTotal * (1 - d / 100) := by
    intro d
    ring
  have hfc2 : findCart { s with carts := withDiscount c (round2 (c.cartTotal * (1 - cpn.discount / 100))) :: removeCart s.carts userId } userId = some (withDiscount c (round2 (c.cartTotal * (1 - cpn.discount / 100)))) := by
    simp [findCart, withDiscount, hord]
  refine ⟨{ s with carts := withDiscount c (round2 (c.cartTotal * (1 - cpn.discount / 100))) :: removeCart s.carts userId }, ?_, hfc2, ?_⟩
  · unfold applyCouponRun
    rw [hcpn, hc]
    dsimp only
    rw [harg]
  · intro code2 cpn2 hcpn2
    unfold applyCouponRun
    rw [findCoupon_set_carts, hcpn2, hfc2]
    dsimp only [withDiscount, Except.map]
    rw [harg]

/-- Fixtures for the C6 witness: coupon SAVE10 (10 percent) applied to a
cart of total 200. -/
def saleCoupon : Coupon :=
  { name := "SAVE10", expiry := 4102444800, discount := 10 }

def saleCart : Cart :=
  { products := [{ product := 11, count := 2, color := "red", price := 100 }],
    cartTotal := 200, totalAfterDiscount := none, orderby := 12 }

def saleStore : Store :=
  { products := [], carts := [saleCart], coupons := [saleCoupon], orders := [],
    users := [] }

theorem applyCoupon_spec_witness :
    ∃ s2 : Store,
      applyCouponRun saleStore 12 "save10" =
        .ok (s2,
          round2 (saleCart.cartTotal * (1 - saleCoupon.discount / 100))) ∧
      findCart s2 12 =
        some (withDiscount saleCart
          (round2 (saleCart.cartTotal * (1 - saleCoupon.discount / 100)))) ∧
      (∀ code2 cpn2, findCoupon saleStore (uc code2) = some cpn2 →
        (applyCouponRun s2 12 code2).map (fun r => r.2) =
          .ok (round2 (saleCart.cartTotal * (1 - cpn2.discount / 100)))) :=
  applyCoupon_spec saleStore 12 "save10" saleCoupon saleCart (by decide)
    (by decide)

/-- Fixtures for the C9 witness: a coupon whose expiry (100) lies before
the application time (1000). -/
def staleCoupon : Coupon :=
  { name := "OLD20", expiry := 100, discount := 20 }

def staleCart : Cart :=
  { products := [{ product := 3, count := 1, color := "black", price := 50 }],
    cartTotal := 50, totalAfterDiscount := none, orderby := 13 }

def staleStore : Store :=
  { products := [], carts := [staleCart], coupons := [staleCoupon],
    orders := [], users := [] }

/-- C9: applyCoupon never consults the coupon's expiry: even when the
stored coupon's expiry lies strictly before the application time, the
operation succeeds and writes the discounted total onto the cart (validity
is a creation-time bound only). -/
theorem applyCoupon_ignores_expiry (s : Store) (userId : Nat) (code : String)
    (cpn : Coupon) (c : Cart) (now : ℤ)
    (hexpired : cpn.expiry < now)
    (hcpn : findCoupon s (uc code) = some cpn)
    (hc : findCart s userId = some c) :
    ∃ s2 : Store,
      applyCouponRun s userId code =
        .ok (s2, round2 (c.cartTotal - c.cartTotal * cpn.discount / 100)) ∧
      (findCart s2 userId).map Cart.totalAfterDiscount =
        some (some (round2 (c.cartTotal - c.cartTotal * cpn.discount / 100))) := by
  have hord : c.orderby = userId := findCart_orderby hc
  refine ⟨{ s with carts := withDiscount c (round2 (c.cartTotal - c.cartTotal * cpn.discount / 100)) :: removeCart s.carts userId }, ?_, ?_⟩
  · unfold applyCouponRun
    rw [hcpn, hc]
  · simp [findCart, withDiscount, hord]

theorem applyCoupon_ignores_expiry_witness :
    ∃ s2 : Store,
      applyCouponRun staleStore 13 "old20" =
        .ok (s2, round2 (staleCart.cartTotal -
          staleCart.cartTotal * staleCoupon.discount / 100)) ∧
      (findCart s2 13).map Cart.totalAfterDiscount =
        some (some (round2 (staleCart.cartTotal -
          staleCart.cartTotal * staleCoupon.discount / 100))) :=
  applyCoupon_ignores_expiry staleStore 13 "old20" staleCoupon staleCart 1000
    (by decide) (by decide) (by decide)

/-! Order status updates (C7). -/

theorem findOrder_oid {s : Store} {oid : Nat} {o : Order}
    (h : findOrder s oid = some o) : o.oid = oid := by
  have := List.find?_some h
  simpa using this

theorem validateStatus_some {st : String} {vs : List String} {a : String}
    (h : validateStatus st vs = some a) : a = titleCase (lc st) := by
  unfold validateStatus at h
  dsimp only at h
  split_ifs at h
  exact (Option.some.inj h).symm

/-- C7: updateOrderStatus rejects the request in full when either the order
status or the payment status is out of its vocabulary — reporting an error
and leaving the store untouched — and when both validate it writes exactly
the title-cased pair onto the order's orderStatus and
paymentIntent.status. -/
theorem updateOrderStatus_spec (s : Store) (oid : Nat) (ost pst : String) :
    ((validateStatus ost validStatuses = none ∨
        validateStatus pst paymentStatuses = none) →
      (updateOrderStatusRun s oid ost pst).1 ≠ none ∧
      (updateOrderStatusRun s oid ost pst).2 = s) ∧
    (∀ a b o, validateStatus ost validStatuses = some a →
      validateStatus pst paymentStatuses = some b →
      findOrder s oid = some o →
      a = titleCase (lc ost) ∧ b = titleCase (lc pst) ∧
      (updateOrderStatusRun s oid ost pst).1 = none ∧
      findOrder (updateOrderStatusRun s oid ost pst).2 oid =
        some (withStatus o a b)) := by
  constructor
  · intro h
    unfold updateOrderStatusRun
    cases hv1 : validateStatus ost validStatuses with
    | none => exact ⟨by simp, rfl⟩
    | some a =>
      cases hv2 : validateStatus pst paymentStatuses with
      | none => exact ⟨by simp, rfl⟩
      | some b =>
        rcases h with h | h
        · rw [hv1] at h
          exact Option.noConfusion h
        · rw [hv2] at h
          exact Option.noConfusion h
  · intro a b o h1 h2 h3
    have hf : ∀ o1 : Order,
        (if o1.oid == oid then withStatus o1 a b else o1).oid = o1.oid := by
      intro o1
      by_cases hh : (o1.oid == oid) = true <;> simp [hh, withStatus]
    have hoid : o.oid = oid := findOrder_oid h3
    refine ⟨validateStatus_some h1, validateStatus_some h2, ?_, ?_⟩
    · unfold updateOrderStatusRun
      rw [h1, h2, h3]
    · unfold updateOrderStatusRun
      rw [h1, h2, h3]
      dsimp only
      unfold findOrder at h3 ⊢
      dsimp only
      rw [find?_oid_map s.orders
        (fun o1 => if o1.oid == oid then withStatus o1 a b else o1) hf oid, h3]
      simp [hoid]

/-- Fixtures for the C7 witness. -/
def shipOrder : Order :=
  { oid := 21, products := [],
    paymentIntent := { method := "COD", amount := 50,
                       status := "Cash On Delivery" },
    orderStatus := "Processing", orderby := 1 }

def shipStore : Store :=
  { products := [], carts := [], coupons := [], orders := [shipOrder],
    users := [] }

theorem updateOrderStatus_spec_witness :
    ((updateOrderStatusRun shipStore 21 "bogus" "waiting").1 ≠ none ∧
     (updateOrderStatusRun shipStore 21 "bogus" "waiting").2 = shipStore) ∧
    ("Dispatched" = titleCase (lc "dispatched") ∧
     "Payment Successful" = titleCase (lc "payment successful") ∧
     (updateOrderStatusRun shipStore 21 "dispatched" "payment successful").1 =
       none ∧
     findOrder (updateOrderStatusRun shipStore 21 "dispatched"
         "payment successful").2 21 =
       some (withStatus shipOrder "Dispatched" "Payment Successful")) :=
  ⟨(updateOrderStatus_spec shipStore 21 "bogus" "waiting").1
     (Or.inl (by decide)),
   (updateOrderStatus_spec shipStore 21 "dispatched" "payment successful").2
     "Dispatched" "Payment Successful" shipOrder (by decide) (by decide)
     (by decide)⟩

end Ecom
